import Mathlib

/-!
Verification development for the `br.h` software rasterizer ("Bear API").

Shallow embedding conventions:
* C `float` values are modelled as exact rationals (`ℚ`).  The reciprocal
  constants `_INV_255` etc., which the source writes as decimal float
  literals (`.00392156862f` and so on, documented there as "reciprocals,
  for removal of divisions"), are modelled as the exact reciprocals.
* C unsigned integers are modelled as `Nat` with explicit `% 2^32`
  (resp. `% 2^16`, `% 256`) at the operations where wraparound or a
  narrowing store happens; C `int`/`int64_t` are modelled as `Int`.
* A C float-to-integer cast truncates toward zero; `trunc` below models it.
* Buffers are external memory, modelled as functions `Nat → Nat` from the
  pixel index to the stored (already width-narrowed) word.
* Null pointers are modelled with `Option`; a dereference of a null
  pointer (which the C source would perform in a few places) is modelled
  with `Except Unit`, the `.error` case marking the undefined behaviour.
* An IEEE float division by zero produces a non-finite value (±inf), not
  a number; where the source divides with the raw `/` operator we model
  the result as `Option ℚ` with `none` for the non-finite outcome.
-/

namespace Br

/-! ### Scalar helpers -/

/-- Truncation toward zero of a rational, the semantics of a C cast from
`float` to a (wide enough) signed integer type. -/
def trunc (q : ℚ) : Int := q.num.tdiv (q.den : Int)

/-- Conversion of a C `int` value to `uint32_t` (reduction mod `2^32`),
as performed by the usual arithmetic conversions when an `int` meets a
`uint32_t` operand. -/
def cu32 (x : Int) : Nat := (x % (2 ^ 32 : Int)).toNat

/-- C cast from `float` to `uint32_t` for the nonnegative values the
source feeds it (negative inputs would be undefined behaviour; we clamp
them to zero via `Int.toNat`). -/
def u32ofFloat (q : ℚ) : Nat := (trunc q).toNat

/-- C cast from `float` to `uint8_t` (truncate, then the narrowing). -/
def u8ofFloat (q : ℚ) : Nat := (trunc q).toNat % 256

/-- `_fdiv` from br.h:288-293: the float "safediv", returning 0 when the
denominator is 0. -/
def _fdiv (a b : ℚ) : ℚ := if b = 0 then 0 else a / b

/-- `_idiv` from br.h:295-300: integer safediv (C `/` truncates toward
zero, hence `Int.tdiv`). -/
def _idiv (a b : Int) : Int := if b = 0 then 0 else a.tdiv b

/-- A raw C float division `a / b` (NOT `_fdiv`): on a zero denominator
IEEE arithmetic produces a non-finite value, modelled as `none`. -/
def c_fdiv (a b : ℚ) : Option ℚ := if b = 0 then none else some (a / b)

/-- Reciprocal constant `_INV_65536` (br.h:191). -/
def _INV_65536 : ℚ := 1 / 65536
/-- Reciprocal constant `_INV_255` (br.h:192). -/
def _INV_255 : ℚ := 1 / 255
/-- Reciprocal constant `_INV_31` (br.h:193). -/
def _INV_31 : ℚ := 1 / 31
/-- Reciprocal constant `_INV_7` (br.h:194). -/
def _INV_7 : ℚ := 1 / 7
/-- Reciprocal constant `_INV_3` (br.h:195). -/
def _INV_3 : ℚ := 1 / 3

/-! ### The BR_* enumeration constants (br.h:35-131) -/

def BR_DOUBLE_BUFFER : Nat := 0
def BR_DEPTH_WRITE : Nat := 1
def BR_DEPTH_TEST : Nat := 2
def BR_PERSPECTIVE_CORRECTION : Nat := 3
def BR_TEXTURE : Nat := 4
def BR_BLEND : Nat := 5
def BR_CULL : Nat := 6
def BR_CLIP : Nat := 7
def BR_PERSPECTIVE_DIVISION : Nat := 8
def BR_SCALE_Z : Nat := 9
def BR_VERTEX_SHADER : Nat := 10
def BR_FRAGMENT_SHADER : Nat := 11
def BR_FILL : Nat := 14
def BR_LINE : Nat := 15
def BR_POINT : Nat := 16
def BR_TRIANGLE : Nat := 17
def BR_TRIANGLES : Nat := 18
def BR_LINES : Nat := 19
def BR_POINTS : Nat := 20
def BR_VERTEX_ARRAY : Nat := 21
def BR_COLOR_ARRAY : Nat := 22
def BR_NORMAL_ARRAY : Nat := 23
def BR_TEXCOORD_ARRAY : Nat := 24
def BR_CW : Nat := 25
def BR_CCW : Nat := 26
def BR_R8G8B8A8 : Nat := 27
def BR_R8G8B8 : Nat := 28
def BR_A8B8G8R8 : Nat := 29
def BR_B8G8R8 : Nat := 30
def BR_R5G5B5A1 : Nat := 31
def BR_R5G5B5 : Nat := 32
def BR_A1B5G5R5 : Nat := 33
def BR_B5G5R5 : Nat := 34
def BR_R3G2B2A1 : Nat := 35
def BR_R3G3B2 : Nat := 36
def BR_A1B2G2R3 : Nat := 37
def BR_B2G3R3 : Nat := 38
def BR_D16 : Nat := 39
def BR_D32 : Nat := 40
def BR_VERTEX_TYPE : Nat := 41
def BR_VERTEX_POSITION : Nat := 42
def BR_VERTEX_COLOR : Nat := 43
def BR_VERTEX_NORMALS : Nat := 44
def BR_VERTEX_TEXTURE_COORDINATES : Nat := 45
def BR_PRIMITIVE_COLOR : Nat := 46
def BR_TEXTURE_COLOR : Nat := 47
def BR_FRAGMENT_COLOR : Nat := 48
def BR_BARY_LINEAR : Nat := 49
def BR_BARY_PERSPECTIVE : Nat := 50
def BR_FRAGMENT_POSITION : Nat := 51
def BR_FRAGMENT_DEPTH : Nat := 52
def BR_COLOR_BUFFER_BIT : Nat := 0x80000000
def BR_DEPTH_BUFFER_BIT : Nat := 0x40000000

/-! ### Vector types (br.h:205-213) -/

structure brvec2 where
  x : ℚ
  y : ℚ

structure brvec3 where
  x : ℚ
  y : ℚ
  z : ℚ

structure brvec4 where
  x : ℚ
  y : ℚ
  z : ℚ
  w : ℚ

structure brvec2i where
  x : Int
  y : Int

structure brvec3i where
  x : Int
  y : Int
  z : Int

structure brvec3ui where
  x : Nat
  y : Nat
  z : Nat

structure brvec4ui where
  x : Nat
  y : Nat
  z : Nat
  w : Nat

/-! ### Pixel pack/extract macros (br.h:134-187)

The C macros compute in `int` and cast the result to the named unsigned
type; the channel arguments at every use site are already in range, and
the final cast is modelled by the explicit `%`. -/

def _BR_R8G8B8A8 (r g b a : Nat) : Nat := (a ||| (b <<< 8) ||| (g <<< 16) ||| (r <<< 24)) % 2 ^ 32
def _BR_R8G8B8A8_R (x : Nat) : Nat := (x &&& 0xFF000000) >>> 24 % 256
def _BR_R8G8B8A8_G (x : Nat) : Nat := (x &&& 0x00FF0000) >>> 16 % 256
def _BR_R8G8B8A8_B (x : Nat) : Nat := (x &&& 0x0000FF00) >>> 8 % 256
def _BR_R8G8B8A8_A (x : Nat) : Nat := (x &&& 0x000000FF) % 256
def _BR_R8G8B8 (r g b : Nat) : Nat := (b ||| (g <<< 8) ||| (r <<< 16)) % 2 ^ 32
def _BR_R8G8B8_R (x : Nat) : Nat := (x &&& 0xFF0000) >>> 16 % 256
def _BR_R8G8B8_G (x : Nat) : Nat := (x &&& 0x00FF00) >>> 8 % 256
def _BR_R8G8B8_B (x : Nat) : Nat := (x &&& 0x0000FF) % 256
def _BR_A8B8G8R8 (r g b a : Nat) : Nat := (r ||| (g <<< 8) ||| (b <<< 16) ||| (a <<< 24)) % 2 ^ 32
def _BR_A8B8G8R8_R (x : Nat) : Nat := (x &&& 0x000000FF) % 256
def _BR_A8B8G8R8_G (x : Nat) : Nat := (x &&& 0x0000FF00) >>> 8 % 256
def _BR_A8B8G8R8_B (x : Nat) : Nat := (x &&& 0x00FF0000) >>> 16 % 256
def _BR_A8B8G8R8_A (x : Nat) : Nat := (x &&& 0xFF000000) >>> 24 % 256
def _BR_B8G8R8 (r g b : Nat) : Nat := (r ||| (g <<< 8) ||| (b <<< 16)) % 2 ^ 32
def _BR_B8G8R8_R (x : Nat) : Nat := (x &&& 0x0000FF) % 256
def _BR_B8G8R8_G (x : Nat) : Nat := (x &&& 0x00FF00) >>> 8 % 256
def _BR_B8G8R8_B (x : Nat) : Nat := (x &&& 0xFF0000) >>> 16 % 256
def _BR_R5G5B5A1 (r g b a : Nat) : Nat := (a ||| (b <<< 1) ||| (g <<< 6) ||| (r <<< 11)) % 2 ^ 16
def _BR_R5G5B5A1_R (x : Nat) : Nat := (x &&& 0xF800) >>> 11 % 256
def _BR_R5G5B5A1_G (x : Nat) : Nat := (x &&& 0x7C0) >>> 6 % 256
def _BR_R5G5B5A1_B (x : Nat) : Nat := (x &&& 0x3E) >>> 1 % 256
def _BR_R5G5B5A1_A (x : Nat) : Nat := (x &&& 0x1) % 256
def _BR_R5G5B5 (r g b : Nat) : Nat := (b ||| (g <<< 5) ||| (r <<< 10)) % 2 ^ 16
def _BR_R5G5B5_R (x : Nat) : Nat := (x &&& 0x7C00) >>> 10 % 256
def _BR_R5G5B5_G (x : Nat) : Nat := (x &&& 0x3E0) >>> 5 % 256
def _BR_R5G5B5_B (x : Nat) : Nat := (x &&& 0x1F) % 256
def _BR_A1B5G5R5 (r g b a : Nat) : Nat := (r ||| (g <<< 5) ||| (b <<< 10) ||| (a <<< 15)) % 2 ^ 16
def _BR_A1B5G5R5_R (x : Nat) : Nat := (x &&& 0x1F) % 256
def _BR_A1B5G5R5_G (x : Nat) : Nat := (x &&& 0x3E0) >>> 5 % 256
def _BR_A1B5G5R5_B (x : Nat) : Nat := (x &&& 0x7C00) >>> 10 % 256
def _BR_A1B5G5R5_A (x : Nat) : Nat := (x &&& 0x8000) >>> 15 % 256
def _BR_B5G5R5 (r g b : Nat) : Nat := (r ||| (g <<< 5) ||| (b <<< 10)) % 2 ^ 16
def _BR_B5G5R5_R (x : Nat) : Nat := (x &&& 0x1F) % 256
def _BR_B5G5R5_G (x : Nat) : Nat := (x &&& 0x3E0) >>> 5 % 256
def _BR_B5G5R5_B (x : Nat) : Nat := (x &&& 0x7C00) >>> 10 % 256
def _BR_R3G2B2A1 (r g b a : Nat) : Nat := (a ||| (b <<< 1) ||| (g <<< 3) ||| (r <<< 5)) % 256
def _BR_R3G2B2A1_R (x : Nat) : Nat := (x &&& 0xE0) >>> 5 % 256
def _BR_R3G2B2A1_G (x : Nat) : Nat := (x &&& 0x18) >>> 3 % 256
def _BR_R3G2B2A1_B (x : Nat) : Nat := (x &&& 0x6) >>> 1 % 256
def _BR_R3G2B2A1_A (x : Nat) : Nat := (x &&& 0x1) % 256
def _BR_R3G3B2 (r g b : Nat) : Nat := (b ||| (g <<< 2) ||| (r <<< 5)) % 256
def _BR_R3G3B2_R (x : Nat) : Nat := (x &&& 0xE0) >>> 5 % 256
def _BR_R3G3B2_G (x : Nat) : Nat := (x &&& 0x1C) >>> 2 % 256
def _BR_R3G3B2_B (x : Nat) : Nat := (x &&& 0x3) % 256
def _BR_A1B2G2R3 (r g b a : Nat) : Nat := (r ||| (g <<< 3) ||| (b <<< 5) ||| (a <<< 7)) % 256
def _BR_A1B2G2R3_R (x : Nat) : Nat := (x &&& 0x7) % 256
def _BR_A1B2G2R3_G (x : Nat) : Nat := (x &&& 0x18) >>> 3 % 256
def _BR_A1B2G2R3_B (x : Nat) : Nat := (x &&& 0x60) >>> 5 % 256
def _BR_A1B2G2R3_A (x : Nat) : Nat := (x &&& 0x80) >>> 7 % 256
def _BR_B2G3R3 (r g b : Nat) : Nat := (r ||| (g <<< 3) ||| (b <<< 6)) % 256
def _BR_B2G3R3_R (x : Nat) : Nat := (x &&& 0x7) % 256
def _BR_B2G3R3_G (x : Nat) : Nat := (x &&& 0x38) >>> 3 % 256
def _BR_B2G3R3_B (x : Nat) : Nat := (x &&& 0xC0) >>> 6 % 256

/-! ### Buffer memory -/

/-- External buffer memory: pixel index to stored (already narrowed)
word. -/
def Buf : Type := Nat → Nat

/-- Store one word into a buffer (`buf[index] = v`). -/
def bufStore (f : Buf) (i v : Nat) : Buf := fun j => if j = i then v else f j

/-- The channel computation `(chan * max) >> 16` performed at the top of
every case of `_plot_pixel` (br.h:312-315 and analogues): a `uint32_t`
multiply (wrapping), a shift, and the narrowing store into `uint8_t`. -/
def _chan (x mul : Nat) : Nat := (x * mul % 2 ^ 32) >>> 16 % 256

/-- `_plot_pixel` from br.h:305-528: plot a 16.16 fixed-point RGBA color
to the color buffer with the given packed pixel format, optionally
blending with the destination.  `cb_type` is the bound color buffer
format and `cb` the buffer memory; the function returns the updated
buffer memory. -/
def _plot_pixel (cb_type : Nat) (index : Nat) (rgba : brvec4ui) (blend : Bool) (cb : Buf) : Buf :=
  if cb_type = BR_R8G8B8 then
    let r := _chan rgba.x 255
    let g := _chan rgba.y 255
    let b := _chan rgba.z 255
    let a := _chan rgba.w 255
    if !blend then bufStore cb index (_BR_B8G8R8 r g b)
    else if a = 255 then bufStore cb index (_BR_R8G8B8 r g b)
    else if a = 0 then cb
    else
      -- note: the source reads the "destination" channels from the
      -- source channels r,g,b here (br.h:327-329), not from dst_val
      let dst_r := _BR_R8G8B8_R r
      let dst_g := _BR_R8G8B8_G g
      let dst_b := _BR_R8G8B8_B b
      let alpha : ℚ := (a : ℚ) * _INV_255
      let pr := u8ofFloat ((r : ℚ) * alpha + (dst_r : ℚ) * (1 - alpha))
      let pg := u8ofFloat ((g : ℚ) * alpha + (dst_g : ℚ) * (1 - alpha))
      let pb := u8ofFloat ((b : ℚ) * alpha + (dst_b : ℚ) * (1 - alpha))
      bufStore cb index (_BR_R8G8B8 pr pg pb)
  else if cb_type = BR_R8G8B8A8 then
    let r := _chan rgba.x 255
    let g := _chan rgba.y 255
    let b := _chan rgba.z 255
    let a := _chan rgba.w 255
    if !blend then bufStore cb index (_BR_R8G8B8A8 r g b a)
    else if a = 255 then bufStore cb index (_BR_R8G8B8A8 r g b a)
    else if a = 0 then cb
    else
      let dst_val := cb index
      let dst_r := _BR_R8G8B8A8_R dst_val
      let dst_g := _BR_R8G8B8A8_G dst_val
      let dst_b := _BR_R8G8B8A8_B dst_val
      let dst_a := _BR_R8G8B8A8_A dst_val
      let alpha : ℚ := (a : ℚ) * _INV_255
      let pr := u8ofFloat ((r : ℚ) * alpha + (dst_r : ℚ) * (1 - alpha))
      let pg := u8ofFloat ((g : ℚ) * alpha + (dst_g : ℚ) * (1 - alpha))
      let pb := u8ofFloat ((b : ℚ) * alpha + (dst_b : ℚ) * (1 - alpha))
      let pa := u8ofFloat ((a : ℚ) * alpha + (dst_a : ℚ) * (1 - alpha))
      bufStore cb index (_BR_R8G8B8A8 pr pg pb pa)
  else if cb_type = BR_B8G8R8 then
    let r := _chan rgba.x 255
    let g := _chan rgba.y 255
    let b := _chan rgba.z 255
    let a := _chan rgba.w 255
    if !blend then bufStore cb index (_BR_B8G8R8 r g b)
    else if a = 255 then bufStore cb index (_BR_B8G8R8 r g b)
    else if a = 0 then cb
    else
      -- source again reads the "destination" channels from r,g,b
      -- (br.h:383-385)
      let dst_r := _BR_B8G8R8_R r
      let dst_g := _BR_B8G8R8_G g
      let dst_b := _BR_B8G8R8_B b
      let alpha : ℚ := (a : ℚ) * _INV_255
      let pr := u8ofFloat ((r : ℚ) * alpha + (dst_r : ℚ) * (1 - alpha))
      let pg := u8ofFloat ((g : ℚ) * alpha + (dst_g : ℚ) * (1 - alpha))
      let pb := u8ofFloat ((b : ℚ) * alpha + (dst_b : ℚ) * (1 - alpha))
      bufStore cb index (_BR_B8G8R8 pr pg pb)
  else if cb_type = BR_A8B8G8R8 then
    let r := _chan rgba.x 255
    let g := _chan rgba.y 255
    let b := _chan rgba.z 255
    let a := _chan rgba.w 255
    if !blend then bufStore cb index (_BR_A8B8G8R8 r g b a)
    else if a = 255 then bufStore cb index (_BR_A8B8G8R8 r g b a)
    else if a = 0 then cb
    else
      let dst_val := cb index
      let dst_r := _BR_A8B8G8R8_R dst_val
      let dst_g := _BR_A8B8G8R8_G dst_val
      let dst_b := _BR_A8B8G8R8_B dst_val
      let dst_a := _BR_A8B8G8R8_A dst_val
      let alpha : ℚ := (a : ℚ) * _INV_255
      let pr := u8ofFloat ((r : ℚ) * alpha + (dst_r : ℚ) * (1 - alpha))
      let pg := u8ofFloat ((g : ℚ) * alpha + (dst_g : ℚ) * (1 - alpha))
      let pb := u8ofFloat ((b : ℚ) * alpha + (dst_b : ℚ) * (1 - alpha))
      let pa := u8ofFloat ((a : ℚ) * alpha + (dst_a : ℚ) * (1 - alpha))
      bufStore cb index (_BR_A8B8G8R8 pr pg pb pa)
  else if cb_type = BR_R5G5B5 then
    let r := _chan rgba.x 31
    let g := _chan rgba.y 31
    let b := _chan rgba.z 31
    if !blend then bufStore cb index (_BR_R5G5B5 r g b)
    else if rgba.w < 32768 then cb
    else bufStore cb index (_BR_R5G5B5 r g b)
  else if cb_type = BR_R5G5B5A1 then
    let r := _chan rgba.x 31
    let g := _chan rgba.y 31
    let b := _chan rgba.z 31
    if !blend then bufStore cb index (_BR_R5G5B5A1 r g b 1)
    else if rgba.w < 32768 then cb
    else bufStore cb index (_BR_R5G5B5A1 r g b 1)
  else if cb_type = BR_B5G5R5 then
    let r := _chan rgba.x 31
    let g := _chan rgba.y 31
    let b := _chan rgba.z 31
    if !blend then bufStore cb index (_BR_B5G5R5 r g b)
    else if rgba.w < 32768 then cb
    else bufStore cb index (_BR_B5G5R5 r g b)
  else if cb_type = BR_A1B5G5R5 then
    let r := _chan rgba.x 31
    let g := _chan rgba.y 31
    let b := _chan rgba.z 31
    if !blend then bufStore cb index (_BR_A1B5G5R5 r g b 1)
    else if rgba.w < 32768 then cb
    else bufStore cb index (_BR_A1B5G5R5 r g b 1)
  else if cb_type = BR_R3G3B2 then
    let r := _chan rgba.x 7
    let g := _chan rgba.y 7
    let b := _chan rgba.z 3
    if !blend then bufStore cb index (_BR_R3G3B2 r g b)
    else if rgba.w < 32768 then cb
    else bufStore cb index (_BR_R3G3B2 r g b)
  else if cb_type = BR_R3G2B2A1 then
    let r := _chan rgba.x 7
    let g := _chan rgba.y 3
    let b := _chan rgba.z 3
    if !blend then bufStore cb index (_BR_R3G2B2A1 r g b 1)
    else if rgba.w < 32768 then cb
    else bufStore cb index (_BR_R3G2B2A1 r g b 1)
  else if cb_type = BR_B2G3R3 then
    let r := _chan rgba.x 7
    let g := _chan rgba.y 7
    let b := _chan rgba.z 3
    if !blend then bufStore cb index (_BR_B2G3R3 r g b)
    else if rgba.w < 32768 then cb
    else bufStore cb index (_BR_B2G3R3 r g b)
  else if cb_type = BR_A1B2G2R3 then
    let r := _chan rgba.x 7
    let g := _chan rgba.y 3
    let b := _chan rgba.z 3
    if !blend then bufStore cb index (_BR_A1B2G2R3 r g b 1)
    else if rgba.w < 32768 then cb
    else bufStore cb index (_BR_A1B2G2R3 r g b 1)
  else cb

/-! ### Depth codec (br.h:531-567) -/

/-- `_plot_depth` from br.h:531-537: write a depth value to the bound
depth buffer (narrowing to the buffer width). -/
def _plot_depth (db_type : Nat) (index : Nat) (depth : Int) (db : Buf) : Buf :=
  if db_type = BR_D16 then bufStore db index ((depth % 2 ^ 16).toNat)
  else if db_type = BR_D32 then bufStore db index ((depth % 2 ^ 32).toNat)
  else db

/-- `_get_depth` from br.h:540-546: read a depth from the bound depth
buffer.  The C function has no return for other `db_type` values (its
callers only reach it with a bound depth buffer); that case is modelled
as 0. -/
def _get_depth (db_type : Nat) (db : Buf) (index : Nat) : Int :=
  if db_type = BR_D16 then db index
  else if db_type = BR_D32 then db index
  else 0

/-- `_convert_depth` from br.h:550-556: convert normalized depth to the
raster-space integer range of the bound depth buffer.  As with
`_get_depth`, the missing-`db_type` fallthrough is modelled as 0. -/
def _convert_depth (db_type : Nat) (depth : ℚ) : Int :=
  if db_type = BR_D16 then trunc (depth * 0xFFFF)
  else if db_type = BR_D32 then trunc (depth * 0xFFFFFFFF)
  else 0

/-- `_is_valid_depth` from br.h:559-567. -/
def _is_valid_depth (db_type : Nat) (depth : Int) : Bool :=
  if db_type = BR_D16 then decide (0 ≤ depth ∧ depth ≤ 0xFFFF)
  else if db_type = BR_D32 then decide (0 ≤ depth ∧ depth ≤ 0xFFFFFFFF)
  else false

/-- `_is_pixel_format` from br.h:570-590. -/
def _is_pixel_format (value : Nat) : Prop :=
  value = BR_R8G8B8A8 ∨ value = BR_R8G8B8 ∨ value = BR_A8B8G8R8 ∨ value = BR_B8G8R8 ∨
  value = BR_R5G5B5A1 ∨ value = BR_R5G5B5 ∨ value = BR_A1B5G5R5 ∨ value = BR_B5G5R5 ∨
  value = BR_R3G2B2A1 ∨ value = BR_R3G3B2 ∨ value = BR_A1B2G2R3 ∨ value = BR_B2G3R3

instance (value : Nat) : Decidable (_is_pixel_format value) := by
  unfold _is_pixel_format
  infer_instance

/-! ### Texture sampler (br.h:594-811) -/

/-- Texture memory for the compressed path: a 16-bit element read at
element index `i`, assembled from the byte memory little-endian (the
source casts the `uint8_t*` texel storage to `uint16_t*`; the GBA-class
targets of this header are little-endian). -/
def texRead16 (tex : Buf) (i : Nat) : Nat := tex (2 * i) + 256 * tex (2 * i + 1)

/-- 32-bit little-endian element read, for the compressed path
(`uint32_t*` cast in the source). -/
def texRead32 (tex : Buf) (i : Nat) : Nat :=
  tex (4 * i) + 256 * tex (4 * i + 1) + 65536 * tex (4 * i + 2) + 16777216 * tex (4 * i + 3)

/-- `_get_texel` from br.h:594-811: fetch the texel at integer texel
coordinates `(x, y)` and return the normalized RGBA color, or `none`
when the function returns without writing `col` (no current context or
unrecognized format).

The coordinate clamp (br.h:599-606) is modelled exactly as C evaluates
it: in `x >= width` the `int` operand is converted to `uint32_t`
(`cu32`), so a negative coordinate takes the `x = width - 1` branch and
the following `x < 0` test no longer fires. -/
def _get_texel (hasCtx : Bool) (x y : Int) (tex : Buf) (format : Nat)
    (width height : Nat) (compressed : Bool) : Option brvec4 :=
  if ¬ hasCtx ∨ ¬ _is_pixel_format format then none else
  let x := if cu32 x ≥ width then (width : Int) - 1 else x
  let x := if x < 0 then 0 else x
  let y := if cu32 y ≥ height then (height : Int) - 1 else y
  let y := if y < 0 then 0 else y
  if ¬ compressed then
    let texel_width : Nat :=
      if format = BR_R8G8B8A8 ∨ format = BR_A8B8G8R8 ∨ format = BR_R5G5B5A1 ∨
         format = BR_A1B5G5R5 ∨ format = BR_R3G2B2A1 ∨ format = BR_A1B2G2R3 then 4 else 3
    let texel : Nat → Nat := fun i => tex (((y * width + x) * texel_width).toNat + i)
    if format = BR_R8G8B8A8 then
      some ⟨texel 0 * _INV_255, texel 1 * _INV_255, texel 2 * _INV_255, texel 3 * _INV_255⟩
    else if format = BR_R8G8B8 then
      some ⟨texel 0 * _INV_255, texel 1 * _INV_255, texel 2 * _INV_255, 1⟩
    else if format = BR_A8B8G8R8 then
      some ⟨texel 3 * _INV_255, texel 2 * _INV_255, texel 1 * _INV_255, texel 0 * _INV_255⟩
    else if format = BR_B8G8R8 then
      some ⟨texel 2 * _INV_255, texel 1 * _INV_255, texel 0 * _INV_255, 1⟩
    else if format = BR_R5G5B5A1 then
      some ⟨texel 0 * _INV_31, texel 1 * _INV_31, texel 2 * _INV_31, if texel 3 ≠ 0 then 1 else 0⟩
    else if format = BR_R5G5B5 then
      some ⟨texel 0 * _INV_31, texel 1 * _INV_31, texel 2 * _INV_31, 1⟩
    else if format = BR_A1B5G5R5 then
      some ⟨texel 3 * _INV_31, texel 2 * _INV_31, texel 1 * _INV_31, if texel 0 ≠ 0 then 1 else 0⟩
    else if format = BR_B5G5R5 then
      some ⟨texel 2 * _INV_31, texel 1 * _INV_31, texel 0 * _INV_31, 1⟩
    else if format = BR_R3G2B2A1 then
      some ⟨texel 0 * _INV_7, texel 1 * _INV_3, texel 2 * _INV_3, if texel 3 ≠ 0 then 1 else 0⟩
    else if format = BR_R3G3B2 then
      some ⟨texel 0 * _INV_7, texel 1 * _INV_7, texel 2 * _INV_3, 1⟩
    else if format = BR_A1B2G2R3 then
      some ⟨texel 3 * _INV_7, texel 2 * _INV_3, texel 1 * _INV_3, if texel 0 ≠ 0 then 1 else 0⟩
    else if format = BR_B2G3R3 then
      some ⟨texel 2 * _INV_7, texel 1 * _INV_7, texel 0 * _INV_3, 1⟩
    else none
  else
    let eidx : Nat := ((y * width + x)).toNat
    if format = BR_R8G8B8A8 then
      let t := texRead32 tex eidx
      some ⟨_BR_R8G8B8A8_R t * _INV_255, _BR_R8G8B8A8_G t * _INV_255,
            _BR_R8G8B8A8_B t * _INV_255, _BR_R8G8B8A8_A t * _INV_255⟩
    else if format = BR_R8G8B8 then
      let t := texRead32 tex eidx
      some ⟨_BR_R8G8B8_R t * _INV_255, _BR_R8G8B8_G t * _INV_255, _BR_R8G8B8_B t * _INV_255, 1⟩
    else if format = BR_A8B8G8R8 then
      let t := texRead32 tex eidx
      some ⟨_BR_A8B8G8R8_R t * _INV_255, _BR_A8B8G8R8_G t * _INV_255,
            _BR_A8B8G8R8_B t * _INV_255, _BR_A8B8G8R8_A t * _INV_255⟩
    else if format = BR_B8G8R8 then
      let t := texRead32 tex eidx
      some ⟨_BR_B8G8R8_R t * _INV_255, _BR_B8G8R8_G t * _INV_255, _BR_B8G8R8_B t * _INV_255, 1⟩
    else if format = BR_R5G5B5A1 then
      let t := texRead16 tex eidx
      some ⟨_BR_R5G5B5A1_R t * _INV_31, _BR_R5G5B5A1_G t * _INV_31,
            _BR_R5G5B5A1_B t * _INV_31, _BR_R5G5B5A1_A t⟩
    else if format = BR_R5G5B5 then
      let t := texRead16 tex eidx
      some ⟨_BR_R5G5B5_R t * _INV_31, _BR_R5G5B5_G t * _INV_31, _BR_R5G5B5_B t * _INV_31, 1⟩
    else if format = BR_A1B5G5R5 then
      let t := texRead16 tex eidx
      some ⟨_BR_A1B5G5R5_R t * _INV_31, _BR_A1B5G5R5_G t * _INV_31,
            _BR_A1B5G5R5_B t * _INV_31, _BR_A1B5G5R5_A t⟩
    else if format = BR_B5G5R5 then
      -- the source decodes this case with the `_BR_A1B5G5R5` extraction
      -- macros (br.h:772-774); the R/G/B fields coincide anyway
      let t := texRead16 tex eidx
      some ⟨_BR_A1B5G5R5_R t * _INV_31, _BR_A1B5G5R5_G t * _INV_31,
            _BR_A1B5G5R5_B t * _INV_31, 1⟩
    else if format = BR_R3G2B2A1 then
      let t := tex eidx
      some ⟨_BR_R3G2B2A1_R t * _INV_7, _BR_R3G2B2A1_G t * _INV_3,
            _BR_R3G2B2A1_B t * _INV_3, _BR_R3G2B2A1_A t⟩
    else if format = BR_R3G3B2 then
      let t := tex eidx
      some ⟨_BR_R3G3B2_R t * _INV_7, _BR_R3G3B2_G t * _INV_7, _BR_R3G3B2_B t * _INV_3, 1⟩
    else if format = BR_A1B2G2R3 then
      -- decoded with the `_BR_R3G2B2A1` macros in the source (br.h:796-799)
      let t := tex eidx
      some ⟨_BR_R3G2B2A1_R t * _INV_7, _BR_R3G2B2A1_G t * _INV_3,
            _BR_R3G2B2A1_B t * _INV_3, _BR_R3G2B2A1_A t⟩
    else if format = BR_B2G3R3 then
      -- decoded with the `_BR_R3G3B2` macros in the source (br.h:804-806)
      let t := tex eidx
      some ⟨_BR_R3G3B2_R t * _INV_7, _BR_R3G3B2_G t * _INV_7, _BR_R3G3B2_B t * _INV_3, 1⟩
    else none

/-! ### Shader callbacks (br.h:268-269)

The source passes user shader callbacks an opaque byte blob plus a
descriptor array.  The embedding models a callback by the record of
attribute values the source marshals into that blob; the byte-layout
marshalling itself carries no additional semantic content. -/

/-- The attribute record marshalled for a fragment shader call
(`_fragment_t`, br.h:898-911). -/
structure FragIn where
  primitive_color : brvec4
  texture_color : brvec4
  color : brvec4
  linear_bary : brvec3
  bary : brvec3
  position : brvec2i
  depth : ℚ

/-- A fragment shader callback: attribute record to (color, discard). -/
def FragShader : Type := FragIn → brvec4 × Bool

/-- The attribute record marshalled for a vertex shader call
(`_vertex_t`, br.h:848-855). -/
structure VertIn where
  type : Nat
  position : brvec4
  color : brvec4
  normals : brvec3
  tcoords : brvec2

/-- A vertex shader callback: attribute record to clip-space position. -/
def VertShader : Type := VertIn → brvec4

/-! ### The context (br.h:220-285) -/

/-- `struct brcontext` from br.h:220-285.  Pointers to externally owned
memory (render buffers, texel storage) are modelled as `Option Nat`
addresses with `none` for `NULL`; the memory they point to is passed
separately to the functions that read or write it.  `void*` offset
fields and `size_t` strides are modelled as `Nat`. -/
structure brcontext where
  cb : Option Nat
  cb2 : Option Nat
  db : Option Nat
  db2 : Option Nat
  cb_type : Nat
  cb2_type : Nat
  db_type : Nat
  db2_type : Nat
  rb_width : Nat
  rb_height : Nat
  rb2_width : Nat
  rb2_height : Nat
  clear_color : brvec4
  clear_depth : ℚ
  point_radius : ℚ
  double_buffer : Bool
  depth_write : Bool
  depth_test : Bool
  persp_corr : Bool
  texture : Bool
  blend : Bool
  cull : Bool
  cull_winding : Nat
  clip : Bool
  persp_div : Bool
  scale_z : Bool
  poly_mode : Nat
  vertex_array : Bool
  color_array : Bool
  normal_array : Bool
  tcoord_array : Bool
  vertex_stride : Nat
  color_stride : Nat
  normal_stride : Nat
  tcoord_stride : Nat
  vertex_offset : Nat
  color_offset : Nat
  normal_offset : Nat
  tcoord_offset : Nat
  vertex_count : Nat
  color_count : Nat
  texture_unit : Nat
  textures : Nat → Option Nat
  texture_widths : Nat → Nat
  texture_heights : Nat → Nat
  texture_formats : Nat → Nat
  texture_compressed_booleans : Nat → Bool
  vshader : Option VertShader
  fshader : Option FragShader
  sh_vposition : Bool
  sh_vcolor : Bool
  sh_vtcoords : Bool
  sh_vnormals : Bool
  sh_vtype : Bool
  sh_prim_color : Bool
  sh_tex_color : Bool
  sh_frag_color : Bool
  sh_bary_linear : Bool
  sh_bary_persp : Bool
  sh_fposition : Bool
  sh_fdepth : Bool

/-- `brCreateContext` from br.h:2919-2990: the freshly initialized
context. -/
def brCreateContext : brcontext where
  cb := none
  cb2 := none
  db := none
  db2 := none
  cb_type := 0
  cb2_type := 0
  db_type := 0
  db2_type := 0
  rb_width := 0
  rb_height := 0
  rb2_width := 0
  rb2_height := 0
  clear_color := ⟨0, 0, 0, 0⟩
  clear_depth := 1
  point_radius := 1
  double_buffer := false
  depth_write := true
  depth_test := true
  persp_corr := true
  texture := true
  blend := false
  cull := false
  cull_winding := BR_CW
  clip := true
  persp_div := true
  scale_z := true
  poly_mode := BR_FILL
  vertex_array := false
  color_array := false
  normal_array := false
  tcoord_array := false
  vertex_stride := 0
  color_stride := 0
  normal_stride := 0
  tcoord_stride := 0
  vertex_offset := 0
  color_offset := 0
  normal_offset := 0
  tcoord_offset := 0
  vertex_count := 0
  color_count := 0
  texture_unit := 0
  textures := fun _ => none
  texture_widths := fun _ => 0
  texture_heights := fun _ => 0
  texture_formats := fun _ => 0
  texture_compressed_booleans := fun _ => false
  vshader := none
  fshader := none
  sh_vposition := false
  sh_vcolor := false
  sh_vtcoords := false
  sh_vnormals := false
  sh_vtype := false
  sh_prim_color := false
  sh_tex_color := false
  sh_frag_color := false
  sh_bary_linear := false
  sh_bary_persp := false
  sh_fposition := false
  sh_fdepth := false

/-- `brBindContext` from br.h:2993-2997, acting on the process-wide
current-context binding: the binding is replaced only when the argument
is non-null. -/
def brBindContext (context cur : Option brcontext) : Option brcontext :=
  match context with
  | some c => some c
  | none => cur

/-! ### State setters.

Each `br*` setter below is the body of the corresponding C function
after its `if(!_brcontext) return;` null-context guard, acting on the
bound context; `withCtx` lifts it back to the guarded, binding-level
form used by the C entry point. -/

/-- The `if(!_brcontext) return;` guard shared by the guarded API entry
points: with no bound context the call is a no-op. -/
def withCtx (f : brcontext → brcontext) : Option brcontext → Option brcontext
  | none => none
  | some c => some (f c)

/-- `brPolygonMode` from br.h:3108-3125. -/
def brPolygonMode (mode : Nat) (c : brcontext) : brcontext :=
  if mode = BR_FILL then { c with poly_mode := BR_FILL }
  else if mode = BR_LINE then { c with poly_mode := BR_LINE }
  else if mode = BR_POINT then { c with poly_mode := BR_POINT }
  else c

/-- `brCullWinding` from br.h:3128-3139. -/
def brCullWinding (winding : Nat) (c : brcontext) : brcontext :=
  if winding = BR_CW ∨ winding = BR_CCW then { c with cull_winding := winding } else c

/-- `brPointSize` from br.h:3142-3151. -/
def brPointSize (radius : ℚ) (c : brcontext) : brcontext :=
  if radius ≥ 0 then { c with point_radius := radius } else { c with point_radius := 0 }

/-- `brEnable` from br.h:3154-3240. -/
def brEnable (state : Nat) (c : brcontext) : brcontext :=
  if state = BR_DOUBLE_BUFFER then { c with double_buffer := true }
  else if state = BR_DEPTH_WRITE then { c with depth_write := true }
  else if state = BR_DEPTH_TEST then { c with depth_test := true }
  else if state = BR_PERSPECTIVE_CORRECTION then { c with persp_corr := true }
  else if state = BR_TEXTURE then { c with texture := true }
  else if state = BR_BLEND then { c with blend := true }
  else if state = BR_CULL then { c with cull := true }
  else if state = BR_CLIP then { c with clip := true }
  else if state = BR_PERSPECTIVE_DIVISION then { c with persp_div := true }
  else if state = BR_SCALE_Z then { c with scale_z := true }
  else if state = BR_VERTEX_ARRAY then { c with vertex_array := true }
  else if state = BR_COLOR_ARRAY then { c with color_array := true }
  else if state = BR_NORMAL_ARRAY then { c with normal_array := true }
  else if state = BR_TEXCOORD_ARRAY then { c with tcoord_array := true }
  else if state = BR_VERTEX_TYPE then { c with sh_vtype := true }
  else if state = BR_VERTEX_POSITION then { c with sh_vposition := true }
  else if state = BR_VERTEX_COLOR then { c with sh_vcolor := true }
  else if state = BR_VERTEX_NORMALS then { c with sh_vnormals := true }
  else if state = BR_VERTEX_TEXTURE_COORDINATES then { c with sh_vtcoords := true }
  else if state = BR_PRIMITIVE_COLOR then { c with sh_prim_color := true }
  else if state = BR_TEXTURE_COLOR then { c with sh_tex_color := true }
  else if state = BR_FRAGMENT_COLOR then { c with sh_frag_color := true }
  else if state = BR_BARY_LINEAR then { c with sh_bary_linear := true }
  else if state = BR_BARY_PERSPECTIVE then { c with sh_bary_persp := true }
  else if state = BR_FRAGMENT_POSITION then { c with sh_fposition := true }
  else if state = BR_FRAGMENT_DEPTH then { c with sh_fdepth := true }
  else c

/-- `brDisable` from br.h:3243-3329. -/
def brDisable (state : Nat) (c : brcontext) : brcontext :=
  if state = BR_DOUBLE_BUFFER then { c with double_buffer := false }
  else if state = BR_DEPTH_WRITE then { c with depth_write := false }
  else if state = BR_DEPTH_TEST then { c with depth_test := false }
  else if state = BR_PERSPECTIVE_CORRECTION then { c with persp_corr := false }
  else if state = BR_TEXTURE then { c with texture := false }
  else if state = BR_BLEND then { c with blend := false }
  else if state = BR_CULL then { c with cull := false }
  else if state = BR_CLIP then { c with clip := false }
  else if state = BR_PERSPECTIVE_DIVISION then { c with persp_div := false }
  else if state = BR_SCALE_Z then { c with scale_z := false }
  else if state = BR_VERTEX_ARRAY then { c with vertex_array := false }
  else if state = BR_COLOR_ARRAY then { c with color_array := false }
  else if state = BR_NORMAL_ARRAY then { c with normal_array := false }
  else if state = BR_TEXCOORD_ARRAY then { c with tcoord_array := false }
  else if state = BR_VERTEX_TYPE then { c with sh_vtype := false }
  else if state = BR_VERTEX_POSITION then { c with sh_vposition := false }
  else if state = BR_VERTEX_COLOR then { c with sh_vcolor := false }
  else if state = BR_VERTEX_NORMALS then { c with sh_vnormals := false }
  else if state = BR_VERTEX_TEXTURE_COORDINATES then { c with sh_vtcoords := false }
  else if state = BR_PRIMITIVE_COLOR then { c with sh_prim_color := false }
  else if state = BR_TEXTURE_COLOR then { c with sh_tex_color := false }
  else if state = BR_FRAGMENT_COLOR then { c with sh_frag_color := false }
  else if state = BR_BARY_LINEAR then { c with sh_bary_linear := false }
  else if state = BR_BARY_PERSPECTIVE then { c with sh_bary_persp := false }
  else if state = BR_FRAGMENT_POSITION then { c with sh_fposition := false }
  else if state = BR_FRAGMENT_DEPTH then { c with sh_fdepth := false }
  else c

/-- `brBindShader` from br.h:3395-3410.  The C function stores the one
`void* shader` argument cast to the vertex- or fragment-shader function
type depending on `type`; `vs` and `fs` are those two casts of the
incoming pointer. -/
def brBindShader (type : Nat) (vs : Option VertShader) (fs : Option FragShader)
    (c : brcontext) : brcontext :=
  let c := if type = BR_VERTEX_SHADER then { c with vshader := vs } else c
  if type = BR_FRAGMENT_SHADER then { c with fshader := fs } else c

/-- `brSwapBuffers` from br.h:3413-3438 (the body after the null-context
guard): exchange the front and back buffer slot groups when
double-buffering is enabled. -/
def brSwapBuffers (c : brcontext) : brcontext :=
  if ¬ c.double_buffer then c
  else
    { c with
      cb := c.cb2, db := c.db2, cb_type := c.cb2_type, db_type := c.db2_type,
      rb_width := c.rb2_width, rb_height := c.rb2_height,
      cb2 := c.cb, db2 := c.db, cb2_type := c.cb_type, db2_type := c.db_type,
      rb2_width := c.rb_width, rb2_height := c.rb_height }

/-- `brSwapBuffers` at the binding level (br.h:3413-3416 checks the
current context first). -/
def brSwapBuffersG : Option brcontext → Option brcontext := withCtx brSwapBuffers

/-- `brActiveTexture` from br.h:3441-3447. -/
def brActiveTexture (unit : Nat) (c : brcontext) : brcontext :=
  if unit < 256 then { c with texture_unit := unit } else c

/-- `brTexture` from br.h:3451-3471. -/
def brTexture (data : Option Nat) (format width height : Nat) (compressed : Bool)
    (c : brcontext) : brcontext :=
  let unit := c.texture_unit
  if data = none ∨ ¬ _is_pixel_format format ∨ width < 1 ∨ height < 1 then
    { c with
      textures := fun i => if i = unit then none else c.textures i,
      texture_widths := fun i => if i = unit then 0 else c.texture_widths i,
      texture_heights := fun i => if i = unit then 0 else c.texture_heights i,
      texture_formats := fun i => if i = unit then 0 else c.texture_formats i,
      texture_compressed_booleans := fun i =>
        if i = unit then false else c.texture_compressed_booleans i }
  else
    { c with
      textures := fun i => if i = unit then data else c.textures i,
      texture_widths := fun i => if i = unit then width else c.texture_widths i,
      texture_heights := fun i => if i = unit then height else c.texture_heights i,
      texture_formats := fun i => if i = unit then format else c.texture_formats i,
      texture_compressed_booleans := fun i =>
        if i = unit then compressed else c.texture_compressed_booleans i }

/-- `brClearColor` from br.h:3475-3490: every channel is clamped to
[0,1] before being stored. -/
def brClearColor (r g b a : ℚ) (c : brcontext) : brcontext :=
  let r := if r < 0 then 0 else r
  let r := if r > 1 then 1 else r
  let g := if g < 0 then 0 else g
  let g := if g > 1 then 1 else g
  let b := if b < 0 then 0 else b
  let b := if b > 1 then 1 else b
  let a := if a < 0 then 0 else a
  let a := if a > 1 then 1 else a
  { c with clear_color := ⟨r, g, b, a⟩ }

/-- `brClearDepth` from br.h:3494-3505: the depth is clamped to [0,1]
before being stored. -/
def brClearDepth (depth : ℚ) (c : brcontext) : brcontext :=
  let depth := if depth > 1 then 1 else depth
  let depth := if depth < 0 then 0 else depth
  { c with clear_depth := depth }

/-- `brBindRenderbuffer` from br.h:3043-3081 (body after the guard on
context, buffer and dimensions): bind a color or depth buffer to the
front set; a second bind must match the dimensions already bound. -/
def brBindRenderbuffer (type width height : Nat) (buffer : Option Nat)
    (c : brcontext) : brcontext :=
  if buffer = none ∨ width < 1 ∨ height < 1 then c
  else if (c.cb.isSome ∨ c.db.isSome) ∧ (width ≠ c.rb_width ∨ height ≠ c.rb_height) then c
  else if _is_pixel_format type then
    { c with cb := buffer, cb_type := type, rb_width := width, rb_height := height }
  else if type = BR_D16 ∨ type = BR_D32 then
    { c with db := buffer, db_type := type, rb_width := width, rb_height := height }
  else c

/-- `brUnbindRenderbuffer` from br.h:3085-3105. -/
def brUnbindRenderbuffer (buffers : Nat) (c : brcontext) : brcontext :=
  let c := if buffers &&& BR_COLOR_BUFFER_BIT ≠ 0 then { c with cb := none, cb_type := 0 } else c
  let c := if buffers &&& BR_DEPTH_BUFFER_BIT ≠ 0 then { c with db := none, db_type := 0 } else c
  if c.cb = none ∧ c.db = none then { c with rb_width := 0, rb_height := 0 } else c

/-! ### The vertex-array pointer setters and the null-context behaviour

`brVertexPointer` (br.h:4008-4015), `brColorPointer` (br.h:4019-4026),
`brNormalPointer` (br.h:4029-4033) and `brTexCoordPointer`
(br.h:4036-4040) have NO `if(!_brcontext) return;` guard: after their
argument checks they store through `_brcontext` unconditionally.  At the
binding level they are therefore modelled in `Except`, with `.error ()`
marking the null-pointer dereference (undefined behaviour) that the C
code performs when no context is bound. -/

/-- `brVertexPointer` on the bound context (the stores at
br.h:4012-4014). -/
def brVertexPointerCtx (count offset stride : Nat) (c : brcontext) : brcontext :=
  if count > 4 ∨ count < 2 then c
  else { c with vertex_count := count, vertex_offset := offset, vertex_stride := stride }

/-- `brVertexPointer` from br.h:4008-4015 at the binding level.  The
`count` range check happens before any context access; with an in-range
`count` and no bound context the function dereferences `NULL`. -/
def brVertexPointer (count offset stride : Nat) (s : Option brcontext) :
    Except Unit (Option brcontext) :=
  if count > 4 ∨ count < 2 then .ok s
  else
    match s with
    | none => .error ()
    | some c =>
        .ok (some { c with vertex_count := count, vertex_offset := offset,
                           vertex_stride := stride })

/-- `brColorPointer` on the bound context (br.h:4019-4026). -/
def brColorPointerCtx (count offset stride : Nat) (c : brcontext) : brcontext :=
  if count ≠ 3 ∧ count ≠ 4 then c
  else { c with color_count := count, color_offset := offset, color_stride := stride }

/-- `brNormalPointer` on the bound context (br.h:4029-4033). -/
def brNormalPointerCtx (offset stride : Nat) (c : brcontext) : brcontext :=
  { c with normal_offset := offset, normal_stride := stride }

/-- `brTexCoordPointer` on the bound context (br.h:4036-4040). -/
def brTexCoordPointerCtx (offset stride : Nat) (c : brcontext) : brcontext :=
  { c with tcoord_offset := offset, tcoord_stride := stride }

/-- `brEnable` at the binding level (br.h:3156-3157 guards on the
current context, so with no context the call is a no-op). -/
def brEnableG (state : Nat) : Option brcontext → Option brcontext := withCtx (brEnable state)

/-! ### Primitive preprocessing steps shared by triangles, lines, points -/

/-- The Z-rescale step applied per vertex when `BR_SCALE_Z` is enabled,
exactly as the source writes it: `z *= 0.5f + 0.5f` (br.h:2199-2201 in
`_process_triangle`, br.h:2617-2618 in `_process_line`, br.h:2881 in
`_process_point`).  By C operator precedence this multiplies `z` by
`0.5 + 0.5 = 1`. -/
def _scale_z (z : ℚ) : ℚ := z * ((1 / 2 : ℚ) + 1 / 2)

/-- The per-vertex reciprocal `inv_v*_w` computed by `_raster_triangle`
(br.h:1079-1087): 0 when perspective correction is off, else
`_fdiv(1.0f, fabs(w))`. -/
def _raster_triangle_inv_w (persp_corr : Bool) (w : ℚ) : ℚ :=
  if persp_corr then _fdiv 1 |w| else 0

/-- The per-pixel perspective-correction divide of `_raster_triangle`
(br.h:1251 and br.h:1522):
`float w = 65536.0f / ((int)(bary.x*inv_v0_w + bary.y*inv_v1_w + bary.z*inv_v2_w));`
— a raw float division (not `_fdiv`), hence `none` (a non-finite float)
when the truncated weighted denominator is 0. -/
def _raster_triangle_persp_w (bary : brvec3ui) (inv0 inv1 inv2 : ℚ) : Option ℚ :=
  c_fdiv 65536
    ((trunc ((bary.x : ℚ) * inv0 + (bary.y : ℚ) * inv1 + (bary.z : ℚ) * inv2) : Int) : ℚ)

/-- The per-vertex reciprocal `inv_v*_w` computed by `_raster_line`
(br.h:2383-2389): 0 when perspective correction is off, else
`_fdiv(1.0f, w)` (no `fabs` here). -/
def _raster_line_inv_w (persp_corr : Bool) (w : ℚ) : ℚ :=
  if persp_corr then _fdiv 1 w else 0

/-- The per-pixel perspective-correction divide of `_raster_line`
(br.h:2431): `float w = _fdiv(65536.0f, (bary.x*inv_v0_w + bary.y*inv_v1_w));`
— this one does go through the safediv. -/
def _raster_line_persp_w (bary : brvec3i) (inv0 inv1 : ℚ) : ℚ :=
  _fdiv 65536 ((bary.x : ℚ) * inv0 + (bary.y : ℚ) * inv1)

/-! ### Point rasterization (br.h:2037-2842) -/

/-- `_raster_point_t` from br.h:2037-2052. -/
structure _raster_point_t where
  x : ℚ
  y : ℚ
  rgba : brvec4ui
  r : Nat
  z : Int
  w : ℚ

/-- Ascending integer range `[a, b]` (`for(x = a; x <= b; x += 1)`). -/
def intRange (a b : Int) : List Int := (List.range ((b - a + 1).toNat)).map (fun i => a + i)

/-- The pixels visited by `for(x = x0; x != x1+sx; x += sx)` with
`sx = (x0 < x1) ? 1 : -1` (br.h:2822-2823 and analogues): `x0` to `x1`
inclusive, in the direction of `sx`. -/
def spanList (x0 x1 : Int) : List Int :=
  let sx : Int := if x0 < x1 then 1 else -1
  (List.range ((x1 - x0).natAbs + 1)).map (fun i => x0 + sx * i)

/-- `_raster_point_fragment` from br.h:2708-2766: bounds check, depth
test, optional fragment-shader pass, pixel plot, depth write.  The
source leaves `frag_pass->depth` unset on this path; it is modelled
as 0.  `bufs` is the pair (color buffer memory, depth buffer memory). -/
def _raster_point_fragment (ctx : brcontext) (point : _raster_point_t) (x y : Int)
    (bufs : Buf × Buf) : Buf × Buf :=
  if x < 0 ∨ x ≥ (ctx.rb_width : Int) ∨ y < 0 ∨ y ≥ (ctx.rb_height : Int) then bufs
  else
    let depth_test := ctx.depth_test && ctx.db.isSome
    let plot_color := ctx.cb.isSome
    let plot_depth := ctx.depth_write && ctx.db.isSome
    let pixel_index : Nat := (y * (ctx.rb_width : Int) + x).toNat
    let depth : Int := point.z
    if depth_test ∧ (¬ _is_valid_depth ctx.db_type depth ∨
        depth > _get_depth ctx.db_type bufs.2 pixel_index) then bufs
    else
      let plot : brvec4ui → Buf × Buf := fun rgba =>
        (if plot_color then _plot_pixel ctx.cb_type pixel_index rgba ctx.blend bufs.1
         else bufs.1,
         if plot_depth ∧ _is_valid_depth ctx.db_type depth then
           _plot_depth ctx.db_type pixel_index depth bufs.2
         else bufs.2)
      match ctx.fshader with
      | none => plot point.rgba
      | some fs =>
          let primary : brvec4 :=
            ⟨(point.rgba.x : ℚ) * _INV_65536, (point.rgba.y : ℚ) * _INV_65536,
             (point.rgba.z : ℚ) * _INV_65536, (point.rgba.w : ℚ) * _INV_65536⟩
          let res := fs ⟨primary, ⟨0, 0, 0, 0⟩, primary, ⟨0, 0, 0⟩, ⟨0, 0, 0⟩, ⟨x, y⟩, 0⟩
          if res.2 then bufs
          else plot ⟨u32ofFloat (res.1.x * 65536), u32ofFloat (res.1.y * 65536),
                     u32ofFloat (res.1.z * 65536), u32ofFloat (res.1.w * 65536)⟩

/-- The midpoint-circle `while(x2 < y2)` loop of `_raster_point`
(br.h:2809-2834).  `gas` is a structural bound on the number of
iterations: the wrapper passes `gas = y2 - x2`, each pass increments
`x2` and never increases `y2`, so `y2 - x2` drops by at least one per
pass and the loop condition `x2 < y2` is already false whenever `gas`
reaches 0; the `gas = 0` return therefore coincides with the C loop
exit. -/
def _raster_point_circle (ctx : brcontext) (point : _raster_point_t) (px py : Int) :
    Nat → Int → Int → Int → Int → Int → Buf × Buf → Buf × Buf
  | 0, _, _, _, _, _, bufs => bufs
  | gas + 1, f, dx, dy, x2, y2, bufs =>
    if x2 < y2 then
      let y2n := if f ≥ 0 then y2 - 1 else y2
      let dyn := if f ≥ 0 then dy + 2 else dy
      let f1 := if f ≥ 0 then f + dyn else f
      let x2n := x2 + 1
      let dxn := dx + 2
      let f2 := f1 + dxn + 1
      let b1 := (spanList (px - x2n) (px + x2n)).foldl
        (fun b x => _raster_point_fragment ctx point x (py + y2n) b) bufs
      let b2 := (spanList (px - x2n) (px + x2n)).foldl
        (fun b x => _raster_point_fragment ctx point x (py - y2n) b) b1
      let b3 := (spanList (px - y2n) (px + y2n)).foldl
        (fun b x => _raster_point_fragment ctx point x (py + x2n) b) b2
      let b4 := (spanList (px - y2n) (px + y2n)).foldl
        (fun b x => _raster_point_fragment ctx point x (py - x2n) b) b3
      _raster_point_circle ctx point px py gas f2 dxn dyn x2n y2n b4
    else bufs

/-- `_raster_point` from br.h:2769-2842: return when the radius is 0
(`r <= 0` on a `uint32_t`), truncate the raster position to integers,
plot the two vertical extreme pixels, the horizontal diameter, then run
the midpoint-circle loop (initial state `f = 1-r`, `dx = 0`,
`dy = -2r`, `x2 = 0`, `y2 = r`; initial loop bound `y2 - x2 = r`). -/
def _raster_point (ctx : brcontext) (params : _raster_point_t) (bufs : Buf × Buf) :
    Buf × Buf :=
  if params.r = 0 then bufs
  else
    let r : Int := params.r
    let px := trunc params.x
    let py := trunc params.y
    let bufs := _raster_point_fragment ctx params px (py + r) bufs
    let bufs := _raster_point_fragment ctx params px (py - r) bufs
    let bufs := (intRange (px - r) (px + r)).foldl
      (fun b x => _raster_point_fragment ctx params x py b) bufs
    _raster_point_circle ctx params px py params.r (1 - r) 0 (-2 * r) 0 r bufs

/-- The unconditional white debug discs emitted by `_process_triangle`
(br.h:2229-2250): for each of the three viewport-mapped vertex
positions, in the order v0, v1, v2, a `_raster_point_t` with 16.16
color (65536,65536,65536,65536), radius 2, z = 0, w = 1 is built and
rastered BEFORE the triangle fill (`_split_raster_triangle`,
br.h:2294) runs. -/
def _process_triangle_debug_points (ctx : brcontext) (x0 y0 x1 y1 x2 y2 : ℚ)
    (bufs : Buf × Buf) : Buf × Buf :=
  let b0 := _raster_point ctx ⟨x0, y0, ⟨65536, 65536, 65536, 65536⟩, 2, 0, 1⟩ bufs
  let b1 := _raster_point ctx ⟨x1, y1, ⟨65536, 65536, 65536, 65536⟩, 2, 0, 1⟩ b0
  _raster_point ctx ⟨x2, y2, ⟨65536, 65536, 65536, 65536⟩, 2, 0, 1⟩ b1

/-! ### Geometry helper for stating claim C1 -/

/-- Signed edge function: the cross product of (b − a) with (p − a). -/
def edge_fn (a b p : Int × Int) : Int :=
  (b.1 - a.1) * (p.2 - a.2) - (b.2 - a.2) * (p.1 - a.1)

/-- Membership of a point in a (closed) triangle given by integer
raster-space vertices: all three edge functions share a sign. -/
def inside_tri (v0 v1 v2 p : Int × Int) : Prop :=
  (0 ≤ edge_fn v0 v1 p ∧ 0 ≤ edge_fn v1 v2 p ∧ 0 ≤ edge_fn v2 v0 p) ∨
  (edge_fn v0 v1 p ≤ 0 ∧ edge_fn v1 v2 p ≤ 0 ∧ edge_fn v2 v0 p ≤ 0)

instance (v0 v1 v2 p : Int × Int) : Decidable (inside_tri v0 v1 v2 p) := by
  unfold inside_tri
  infer_instance

/-! ### The concrete draw of claim C1

A 64×64 `BR_R8G8B8A8` color buffer bound to a fresh context (so
`blend = false`, no shaders, no depth buffer, no complete texture
unit), cleared to (0,0,0,0) (every word 0).  The triangle vertices are
in the frustum, so clipping produces no children; perspective division
is skipped because every `w = 1` (br.h:2176, `w != 1.0f`); Z-rescale
touches only z.  The viewport map (br.h:2222-2227) is
`x = half_width + v.x*half_width`, `y = half_height + (-v.y)*half_height`. -/

def c1_ctx : brcontext := brBindRenderbuffer BR_R8G8B8A8 64 64 (some 1) brCreateContext

def c1_v0 : brvec4 := ⟨-(1 / 2), -(1 / 2), 0, 1⟩
def c1_v1 : brvec4 := ⟨1 / 2, -(1 / 2), 0, 1⟩
def c1_v2 : brvec4 := ⟨0, 1 / 2, 0, 1⟩

def c1_half_width : ℚ := (c1_ctx.rb_width : ℚ) * (1 / 2)
def c1_half_height : ℚ := (c1_ctx.rb_height : ℚ) * (1 / 2)

def c1_x0 : ℚ := c1_half_width + c1_v0.x * c1_half_width
def c1_y0 : ℚ := c1_half_height + -c1_v0.y * c1_half_height
def c1_x1 : ℚ := c1_half_width + c1_v1.x * c1_half_width
def c1_y1 : ℚ := c1_half_height + -c1_v1.y * c1_half_height
def c1_x2 : ℚ := c1_half_width + c1_v2.x * c1_half_width
def c1_y2 : ℚ := c1_half_height + -c1_v2.y * c1_half_height

/-- The color and depth memory after the three debug discs of the C1
draw (the cleared color buffer holds `_BR_R8G8B8A8 0 0 0 0 = 0`
everywhere; there is no depth buffer). -/
def c1_bufs : Buf × Buf :=
  _process_triangle_debug_points c1_ctx c1_x0 c1_y0 c1_x1 c1_y1 c1_x2 c1_y2
    (fun _ => 0, fun _ => 0)

/-! ### The API operations on a bound context, as one step type (for the
state-invariant claim) -/

/-- One invocation of a state-mutating API entry point on the bound
context.  (The draw and clear calls write only the externally owned
buffer memory, and the context factory / binding calls do not mutate a
bound context, so the context-state invariants concern exactly these
operations.) -/
inductive ApiOp where
  | enable (state : Nat)
  | disable (state : Nat)
  | polygonMode (mode : Nat)
  | cullWinding (winding : Nat)
  | pointSize (radius : ℚ)
  | activeTexture (unit : Nat)
  | texture (data : Option Nat) (format width height : Nat) (compressed : Bool)
  | clearColor (r g b a : ℚ)
  | clearDepth (depth : ℚ)
  | swapBuffers
  | bindRenderbuffer (type width height : Nat) (buffer : Option Nat)
  | unbindRenderbuffer (buffers : Nat)
  | bindShader (type : Nat) (vs : Option VertShader) (fs : Option FragShader)
  | vertexPointer (count offset stride : Nat)
  | colorPointer (count offset stride : Nat)
  | normalPointer (offset stride : Nat)
  | tcoordPointer (offset stride : Nat)

/-- Apply one API operation to the bound context. -/
def applyOp : ApiOp → brcontext → brcontext
  | .enable s, c => brEnable s c
  | .disable s, c => brDisable s c
  | .polygonMode m, c => brPolygonMode m c
  | .cullWinding w, c => brCullWinding w c
  | .pointSize r, c => brPointSize r c
  | .activeTexture u, c => brActiveTexture u c
  | .texture d f w h comp, c => brTexture d f w h comp c
  | .clearColor r g b a, c => brClearColor r g b a c
  | .clearDepth d, c => brClearDepth d c
  | .swapBuffers, c => brSwapBuffers c
  | .bindRenderbuffer t w h buf, c => brBindRenderbuffer t w h buf c
  | .unbindRenderbuffer b, c => brUnbindRenderbuffer b c
  | .bindShader t vs fs, c => brBindShader t vs fs c
  | .vertexPointer cnt off st, c => brVertexPointerCtx cnt off st c
  | .colorPointer cnt off st, c => brColorPointerCtx cnt off st c
  | .normalPointer off st, c => brNormalPointerCtx off st c
  | .tcoordPointer off st, c => brTexCoordPointerCtx off st c

/-- The context-state invariants of claim C9: active texture unit in
[0,255], clear depth in [0,1], every clear-color channel in [0,1],
point radius nonnegative. -/
def contextInvariant (c : brcontext) : Prop :=
  c.texture_unit ≤ 255 ∧
  0 ≤ c.clear_depth ∧ c.clear_depth ≤ 1 ∧
  0 ≤ c.clear_color.x ∧ c.clear_color.x ≤ 1 ∧
  0 ≤ c.clear_color.y ∧ c.clear_color.y ≤ 1 ∧
  0 ≤ c.clear_color.z ∧ c.clear_color.z ≤ 1 ∧
  0 ≤ c.clear_color.w ∧ c.clear_color.w ≤ 1 ∧
  0 ≤ c.point_radius

/-! ### The concrete texture of claim C6

A 2×2 non-compressed `BR_R8G8B8A8` texture: texel (0,0) holds bytes
(255,0,0,255) (red) and texel (1,0) holds bytes (0,255,0,255) (green);
byte addresses 8-15 back the top row and are not read below. -/

def c6_tex : Buf := fun i => [255, 0, 0, 255, 0, 255, 0, 255].getD i 0

/-! ## Theorems -/

/-- Truncation toward zero of an integer-valued rational is the
integer. -/
theorem trunc_intCast (n : Int) : trunc ((n : ℚ)) = n := by
  simp [trunc, Rat.num_intCast, Rat.den_intCast, Int.tdiv_one]

/-- C2: the claim states that with `SCALE_Z` enabled the preprocessor
maps each vertex `z` to `z*0.5 + 0.5`.  The source step, shared
verbatim by `_process_triangle`, `_process_line` and `_process_point`,
is `z *= 0.5f + 0.5f`, which multiplies `z` by 1 and so leaves every
`z` unchanged; in particular at `z = 0` it produces 0, not the claimed
`0*0.5 + 0.5 = 0.5`. -/
theorem C2_scale_z_is_identity :
    (∀ z : ℚ, _scale_z z = z) ∧ _scale_z 0 ≠ 0 * (1 / 2) + 1 / 2 := by
  constructor
  · intro z
    norm_num [_scale_z]
  · norm_num [_scale_z]

/-- C3: the claim states that every core operation is a no-op when no
context is bound.  The guarded entry points are (`brEnable` at the
binding level returns the binding unchanged on `none`), but
`brVertexPointer` with an in-range count stores through the null
current-context pointer — modelled as `Except.error ()` — instead of
returning: it is not a no-op. -/
theorem C3_vertex_pointer_derefs_null_context :
    brVertexPointer 3 0 0 none = Except.error () ∧
    (∀ state : Nat, brEnableG state none = none) ∧
    (∀ count offset stride : Nat, count > 4 ∨ count < 2 →
      brVertexPointer count offset stride none = Except.ok none) := by
  refine ⟨rfl, fun _ => rfl, fun count offset stride h => ?_⟩
  simp [brVertexPointer, h]

/-- C3 witness: the third conjunct applied at the out-of-range count 5
(the only path on which `brVertexPointer` really is a no-op without a
context). -/
theorem C3_vertex_pointer_derefs_null_context_witness :
    brVertexPointer 5 0 0 none = Except.ok none :=
  C3_vertex_pointer_derefs_null_context.2.2 5 0 0 (by decide)

/-- C4 counterexample: with perspective correction enabled and all
three vertex `w` equal to 0, the per-vertex reciprocals are
`_fdiv 1 |0| = 0`, the weighted barycentric denominator truncates to 0,
and the per-pixel triangle divide `65536.0f / (int)(...)` — a raw
float division, not a safediv — produces a non-finite value (`none`),
not the 0 the claim requires. -/
theorem C4_triangle_divide_counterexample :
    _raster_triangle_persp_w ⟨65536, 0, 0⟩ (_raster_triangle_inv_w true 0)
      (_raster_triangle_inv_w true 0) (_raster_triangle_inv_w true 0) = none ∧
    _raster_triangle_persp_w ⟨65536, 0, 0⟩ (_raster_triangle_inv_w true 0)
      (_raster_triangle_inv_w true 0) (_raster_triangle_inv_w true 0) ≠ some 0 := by
  have h : _raster_triangle_inv_w true 0 = 0 := by
    norm_num [_raster_triangle_inv_w, _fdiv]
  have hz : _raster_triangle_persp_w ⟨65536, 0, 0⟩ 0 0 0 = none := by
    have ht : trunc ((65536 : ℚ) * 0 + (0 : ℚ) * 0 + (0 : ℚ) * 0) = 0 := by
      have : ((65536 : ℚ) * 0 + (0 : ℚ) * 0 + (0 : ℚ) * 0) = ((0 : Int) : ℚ) := by norm_num
      rw [this, trunc_intCast]
    simp only [_raster_triangle_persp_w, c_fdiv]
    norm_num at ht ⊢
    norm_num [ht]
  rw [h]
  exact ⟨hz, by rw [hz]; exact fun hc => Option.noConfusion hc⟩

/-- C4 amended: the reciprocal-of-`w` computations and the line
rasterizer per-fragment perspective divide go through the safediv
`_fdiv` (so a zero denominator yields 0 there), but the triangle
rasterizer per-fragment divide `65536.0f / (int)(Σ b_i·inv_w_i)` is a
plain float division, which on a zero denominator yields a non-finite
value rather than 0. -/
theorem C4_safediv_amended :
    (∀ a : ℚ, _fdiv a 0 = 0) ∧
    (∀ bary : brvec3i,
      _raster_line_persp_w bary (_raster_line_inv_w true 0) (_raster_line_inv_w true 0) = 0) ∧
    (∀ bary : brvec3ui,
      _raster_triangle_persp_w bary (_raster_triangle_inv_w true 0)
        (_raster_triangle_inv_w true 0) (_raster_triangle_inv_w true 0) = none) := by
  have hinvl : _raster_line_inv_w true 0 = 0 := by norm_num [_raster_line_inv_w, _fdiv]
  have hinvt : _raster_triangle_inv_w true 0 = 0 := by
    norm_num [_raster_triangle_inv_w, _fdiv]
  refine ⟨fun a => by norm_num [_fdiv], fun bary => ?_, fun bary => ?_⟩
  · rw [hinvl]
    norm_num [_raster_line_persp_w, _fdiv]
  · rw [hinvt]
    have ht : trunc ((bary.x : ℚ) * 0 + (bary.y : ℚ) * 0 + (bary.z : ℚ) * 0) = 0 := by
      have : ((bary.x : ℚ) * 0 + (bary.y : ℚ) * 0 + (bary.z : ℚ) * 0) = ((0 : Int) : ℚ) := by
        norm_num
      rw [this, trunc_intCast]
    simp only [_raster_triangle_persp_w, c_fdiv, ht]
    norm_num

/-- C5: the claim states that a non-blended plot into a `BR_R8G8B8`
color buffer stores `_BR_R8G8B8(r,g,b)` (red in bits 16-23).  The
source (br.h:317) instead packs the channels with `_BR_B8G8R8`, so a
pure red 16.16 color (65536,0,0,65536) is stored as `0x0000FF`, not
`0xFF0000`. -/
theorem C5_r8g8b8_nonblend_stores_bgr :
    _plot_pixel BR_R8G8B8 0 ⟨65536, 0, 0, 65536⟩ false (fun _ => 0) 0 = _BR_B8G8R8 255 0 0 ∧
    _BR_B8G8R8 255 0 0 = 0x0000FF ∧
    _BR_R8G8B8 255 0 0 = 0xFF0000 ∧
    _BR_B8G8R8 255 0 0 ≠ _BR_R8G8B8 255 0 0 := by
  refine ⟨?_, by decide, by decide, by decide⟩
  decide

/-- C7 counterexample: with blending enabled and a `BR_R5G5B5A1` color
buffer, a white pixel with source alpha 16384 (0.25 in 16.16, greater
than 0) is discarded — the buffer is returned unchanged — because the
source discards whenever `rgba.w < 32768`, not only at alpha 0. -/
theorem C7_alpha_quarter_discarded :
    _plot_pixel BR_R5G5B5A1 0 ⟨65536, 65536, 65536, 16384⟩ true (fun _ => 0) = (fun _ => 0) ∧
    (16384 : Nat) ≠ 0 :=
  ⟨rfl, by decide⟩

/-- C7 amended: blending into a 1-bit-alpha color buffer — any of
`BR_R5G5B5A1` (br.h:436-448), `BR_A1B5G5R5` (br.h:462-473),
`BR_R3G2B2A1` (br.h:488-499), `BR_A1B2G2R3` (br.h:514-525) — discards
the pixel exactly when the 16.16 source alpha is below 32768 (0.5),
and otherwise stores the packed color with the alpha bit set to 1
(opaque): all four formats use the same threshold. -/
theorem C7_one_bit_alpha_threshold :
    (∀ (rgba : brvec4ui) (cb : Buf) (index : Nat),
      _plot_pixel BR_R5G5B5A1 index rgba true cb =
        if rgba.w < 32768 then cb
        else bufStore cb index
          (_BR_R5G5B5A1 (_chan rgba.x 31) (_chan rgba.y 31) (_chan rgba.z 31) 1)) ∧
    (∀ (rgba : brvec4ui) (cb : Buf) (index : Nat),
      _plot_pixel BR_A1B5G5R5 index rgba true cb =
        if rgba.w < 32768 then cb
        else bufStore cb index
          (_BR_A1B5G5R5 (_chan rgba.x 31) (_chan rgba.y 31) (_chan rgba.z 31) 1)) ∧
    (∀ (rgba : brvec4ui) (cb : Buf) (index : Nat),
      _plot_pixel BR_R3G2B2A1 index rgba true cb =
        if rgba.w < 32768 then cb
        else bufStore cb index
          (_BR_R3G2B2A1 (_chan rgba.x 7) (_chan rgba.y 3) (_chan rgba.z 3) 1)) ∧
    (∀ (rgba : brvec4ui) (cb : Buf) (index : Nat),
      _plot_pixel BR_A1B2G2R3 index rgba true cb =
        if rgba.w < 32768 then cb
        else bufStore cb index
          (_BR_A1B2G2R3 (_chan rgba.x 7) (_chan rgba.y 3) (_chan rgba.z 3) 1)) ∧
    _BR_R5G5B5A1_A (_BR_R5G5B5A1 31 31 31 1) = 1 ∧
    _BR_A1B5G5R5_A (_BR_A1B5G5R5 31 31 31 1) = 1 ∧
    _BR_R3G2B2A1_A (_BR_R3G2B2A1 7 3 3 1) = 1 ∧
    _BR_A1B2G2R3_A (_BR_A1B2G2R3 7 3 3 1) = 1 := by
  refine ⟨fun rgba cb index => ?_, fun rgba cb index => ?_, fun rgba cb index => ?_,
    fun rgba cb index => ?_, by decide, by decide, by decide, by decide⟩
  all_goals
    simp only [_plot_pixel, BR_R8G8B8, BR_R8G8B8A8, BR_B8G8R8, BR_A8B8G8R8, BR_R5G5B5,
      BR_R5G5B5A1, BR_B5G5R5, BR_A1B5G5R5, BR_R3G3B2, BR_R3G2B2A1, BR_B2G3R3, BR_A1B2G2R3]
    norm_num

/-- C6: the claim states that sampling clamps a negative texel
coordinate to 0.  In `_get_texel` the test `x >= width` compares the
signed coordinate with the unsigned width, so a negative `x` converts
to a huge unsigned value, takes the `x = width - 1` branch, and the
`x < 0` branch never fires: sampling the 2×2 texture of `c6_tex` at
(−1, 0) returns the texel at (1,0) (green), not the texel at (0,0)
(red) that clamping to column 0 would give. -/
theorem C6_negative_x_clamps_to_last_column :
    _get_texel true (-1) 0 c6_tex BR_R8G8B8A8 2 2 false = some ⟨0, 1, 0, 1⟩ ∧
    _get_texel true 0 0 c6_tex BR_R8G8B8A8 2 2 false = some ⟨1, 0, 0, 1⟩ ∧
    (⟨0, 1, 0, 1⟩ : brvec4) ≠ ⟨1, 0, 0, 1⟩ := by
  refine ⟨?_, ?_, ?_⟩
  · simp only [_get_texel, c6_tex]
    norm_num [_is_pixel_format, cu32, _INV_255, BR_R8G8B8A8, BR_A8B8G8R8, BR_R5G5B5A1,
      BR_A1B5G5R5, BR_R3G2B2A1, BR_A1B2G2R3, BR_R8G8B8, Int.toNat_ofNat]
    simp only [show Int.toNat (4 : Int) = 4 from rfl, show Int.toNat (0 : Int) = 0 from rfl]
    norm_num [_INV_255]
  · simp only [_get_texel, c6_tex]
    norm_num [_is_pixel_format, cu32, _INV_255, BR_R8G8B8A8, BR_A8B8G8R8, BR_R5G5B5A1,
      BR_A1B5G5R5, BR_R3G2B2A1, BR_A1B2G2R3, BR_R8G8B8, Int.toNat_ofNat]
  · intro hc
    have := congrArg brvec4.x hc
    norm_num at this

/-- C10: `brBindContext` replaces the current-context binding only for
a non-null argument; a null argument leaves the binding unchanged. -/
theorem C10_bind_null_keeps_binding :
    (∀ cur : Option brcontext, brBindContext none cur = cur) ∧
    (∀ (ctx : brcontext) (cur : Option brcontext), brBindContext (some ctx) cur = some ctx) :=
  ⟨fun _ => rfl, fun _ _ => rfl⟩

/-- C8: `brSwapBuffers` exchanges the complete front and back slot
groups (pointers, formats, dimensions) when double-buffering is
enabled and is a no-op when it is disabled, so two consecutive swaps
with no intervening bind restore the context exactly — also at the
binding level, where a missing context makes each call a no-op. -/
theorem C8_swap_involution :
    (∀ c : brcontext, brSwapBuffers (brSwapBuffers c) = c) ∧
    (∀ c : brcontext, c.double_buffer = false → brSwapBuffers c = c) ∧
    (∀ s : Option brcontext, brSwapBuffersG (brSwapBuffersG s) = s) := by
  have h1 : ∀ c : brcontext, brSwapBuffers (brSwapBuffers c) = c := by
    intro c
    by_cases h : c.double_buffer
    · simp only [brSwapBuffers, h]
      norm_num
      rw [← h]
    · simp [brSwapBuffers, h]
  refine ⟨h1, fun c h => by simp [brSwapBuffers, h], fun s => ?_⟩
  cases s with
  | none => rfl
  | some c => simpa [brSwapBuffersG, withCtx] using h1 c

/-- C8 witness: the no-op clause applied to the freshly created
context, whose `double_buffer` flag is off. -/
theorem C8_swap_involution_witness :
    brSwapBuffers brCreateContext = brCreateContext :=
  C8_swap_involution.2.1 brCreateContext rfl

/-- `brEnable` never touches the invariant-bearing fields. -/
theorem brEnable_proj (s : Nat) (c : brcontext) :
    (brEnable s c).texture_unit = c.texture_unit ∧
    (brEnable s c).clear_depth = c.clear_depth ∧
    (brEnable s c).clear_color = c.clear_color ∧
    (brEnable s c).point_radius = c.point_radius := by
  unfold brEnable
  refine ⟨?_, ?_, ?_, ?_⟩ <;>
    simp only [apply_ite brcontext.texture_unit, apply_ite brcontext.clear_depth,
      apply_ite brcontext.clear_color, apply_ite brcontext.point_radius, ite_self]

/-- `brDisable` never touches the invariant-bearing fields. -/
theorem brDisable_proj (s : Nat) (c : brcontext) :
    (brDisable s c).texture_unit = c.texture_unit ∧
    (brDisable s c).clear_depth = c.clear_depth ∧
    (brDisable s c).clear_color = c.clear_color ∧
    (brDisable s c).point_radius = c.point_radius := by
  unfold brDisable
  refine ⟨?_, ?_, ?_, ?_⟩ <;>
    simp only [apply_ite brcontext.texture_unit, apply_ite brcontext.clear_depth,
      apply_ite brcontext.clear_color, apply_ite brcontext.point_radius, ite_self]

/-- The context invariants depend only on the four fields they
mention. -/
theorem contextInvariant_congr {c x : brcontext}
    (ht : x.texture_unit = c.texture_unit) (hd : x.clear_depth = c.clear_depth)
    (hc : x.clear_color = c.clear_color) (hp : x.point_radius = c.point_radius)
    (h : contextInvariant c) : contextInvariant x := by
  unfold contextInvariant at h ⊢
  rw [ht, hd, hc, hp]
  exact h

/-- The clamp pattern of `brClearColor` keeps a channel in [0,1]. -/
theorem clamp_color_bounds (v : ℚ) :
    0 ≤ (if (if v < 0 then (0 : ℚ) else v) > 1 then 1 else if v < 0 then 0 else v) ∧
    (if (if v < 0 then (0 : ℚ) else v) > 1 then 1 else if v < 0 then 0 else v) ≤ 1 := by
  split_ifs <;> constructor <;> linarith

/-- The clamp pattern of `brClearDepth` keeps the depth in [0,1]. -/
theorem clamp_depth_bounds (v : ℚ) :
    0 ≤ (if (if v > 1 then (1 : ℚ) else v) < 0 then 0 else if v > 1 then 1 else v) ∧
    (if (if v > 1 then (1 : ℚ) else v) < 0 then 0 else if v > 1 then 1 else v) ≤ 1 := by
  split_ifs <;> constructor <;> linarith

/-- C9: the invariants (active texture unit ≤ 255, clear depth in
[0,1], clear-color channels in [0,1], point radius ≥ 0) hold for a
freshly created context and are preserved by every state-mutating API
operation: `brActiveTexture` rejects units ≥ 256, `brClearColor` and
`brClearDepth` clamp to [0,1], `brPointSize` replaces a negative
radius with 0, and no other operation touches these fields. -/
theorem C9_state_invariants :
    contextInvariant brCreateContext ∧
    ∀ (op : ApiOp) (c : brcontext), contextInvariant c → contextInvariant (applyOp op c) := by
  constructor
  · exact ⟨by decide, zero_le_one, le_refl 1, le_refl 0, zero_le_one, le_refl 0, zero_le_one,
      le_refl 0, zero_le_one, le_refl 0, zero_le_one, zero_le_one⟩
  · intro op c h
    obtain ⟨hu, hd0, hd1, hx0, hx1, hy0, hy1, hz0, hz1, hw0, hw1, hr⟩ := h
    cases op with
    | enable s =>
        show contextInvariant (brEnable s c)
        exact contextInvariant_congr (brEnable_proj s c).1 (brEnable_proj s c).2.1
          (brEnable_proj s c).2.2.1 (brEnable_proj s c).2.2.2
          ⟨hu, hd0, hd1, hx0, hx1, hy0, hy1, hz0, hz1, hw0, hw1, hr⟩
    | disable s =>
        show contextInvariant (brDisable s c)
        exact contextInvariant_congr (brDisable_proj s c).1 (brDisable_proj s c).2.1
          (brDisable_proj s c).2.2.1 (brDisable_proj s c).2.2.2
          ⟨hu, hd0, hd1, hx0, hx1, hy0, hy1, hz0, hz1, hw0, hw1, hr⟩
    | polygonMode m =>
        show contextInvariant (brPolygonMode m c)
        unfold brPolygonMode
        split_ifs <;> exact ⟨hu, hd0, hd1, hx0, hx1, hy0, hy1, hz0, hz1, hw0, hw1, hr⟩
    | cullWinding w =>
        show contextInvariant (brCullWinding w c)
        unfold brCullWinding
        split_ifs <;> exact ⟨hu, hd0, hd1, hx0, hx1, hy0, hy1, hz0, hz1, hw0, hw1, hr⟩
    | pointSize r =>
        show contextInvariant (brPointSize r c)
        unfold brPointSize
        split_ifs with hge
        · exact ⟨hu, hd0, hd1, hx0, hx1, hy0, hy1, hz0, hz1, hw0, hw1, hge⟩
        · exact ⟨hu, hd0, hd1, hx0, hx1, hy0, hy1, hz0, hz1, hw0, hw1, le_refl 0⟩
    | activeTexture u =>
        show contextInvariant (brActiveTexture u c)
        unfold brActiveTexture
        split_ifs with hlt
        · exact ⟨Nat.lt_succ_iff.mp hlt, hd0, hd1, hx0, hx1, hy0, hy1, hz0, hz1, hw0, hw1, hr⟩
        · exact ⟨hu, hd0, hd1, hx0, hx1, hy0, hy1, hz0, hz1, hw0, hw1, hr⟩
    | texture d f w hh comp =>
        show contextInvariant (brTexture d f w hh comp c)
        unfold brTexture
        split_ifs <;> exact ⟨hu, hd0, hd1, hx0, hx1, hy0, hy1, hz0, hz1, hw0, hw1, hr⟩
    | clearColor r g b a =>
        show contextInvariant (brClearColor r g b a c)
        exact ⟨hu, hd0, hd1, (clamp_color_bounds r).1, (clamp_color_bounds r).2,
          (clamp_color_bounds g).1, (clamp_color_bounds g).2,
          (clamp_color_bounds b).1, (clamp_color_bounds b).2,
          (clamp_color_bounds a).1, (clamp_color_bounds a).2, hr⟩
    | clearDepth d =>
        show contextInvariant (brClearDepth d c)
        exact ⟨hu, (clamp_depth_bounds d).1, (clamp_depth_bounds d).2, hx0, hx1, hy0, hy1,
          hz0, hz1, hw0, hw1, hr⟩
    | swapBuffers =>
        show contextInvariant (brSwapBuffers c)
        unfold brSwapBuffers
        split_ifs <;> exact ⟨hu, hd0, hd1, hx0, hx1, hy0, hy1, hz0, hz1, hw0, hw1, hr⟩
    | bindRenderbuffer t w hh buf =>
        show contextInvariant (brBindRenderbuffer t w hh buf c)
        unfold brBindRenderbuffer
        split_ifs <;> exact ⟨hu, hd0, hd1, hx0, hx1, hy0, hy1, hz0, hz1, hw0, hw1, hr⟩
    | unbindRenderbuffer b =>
        show contextInvariant (brUnbindRenderbuffer b c)
        simp only [brUnbindRenderbuffer]
        split_ifs <;> exact ⟨hu, hd0, hd1, hx0, hx1, hy0, hy1, hz0, hz1, hw0, hw1, hr⟩
    | bindShader t vs fs =>
        show contextInvariant (brBindShader t vs fs c)
        simp only [brBindShader]
        split_ifs <;> exact ⟨hu, hd0, hd1, hx0, hx1, hy0, hy1, hz0, hz1, hw0, hw1, hr⟩
    | vertexPointer cnt off st =>
        show contextInvariant (brVertexPointerCtx cnt off st c)
        unfold brVertexPointerCtx
        split_ifs <;> exact ⟨hu, hd0, hd1, hx0, hx1, hy0, hy1, hz0, hz1, hw0, hw1, hr⟩
    | colorPointer cnt off st =>
        show contextInvariant (brColorPointerCtx cnt off st c)
        unfold brColorPointerCtx
        split_ifs <;> exact ⟨hu, hd0, hd1, hx0, hx1, hy0, hy1, hz0, hz1, hw0, hw1, hr⟩
    | normalPointer off st =>
        exact ⟨hu, hd0, hd1, hx0, hx1, hy0, hy1, hz0, hz1, hw0, hw1, hr⟩
    | tcoordPointer off st =>
        exact ⟨hu, hd0, hd1, hx0, hx1, hy0, hy1, hz0, hz1, hw0, hw1, hr⟩

/-- C9 witness: the preservation clause applied to the concrete
operation `brPointSize (-3)` on the freshly created context, whose
invariant is the first clause. -/
theorem C9_state_invariants_witness :
    contextInvariant (applyOp (ApiOp.pointSize (-3)) brCreateContext) :=
  C9_state_invariants.2 (ApiOp.pointSize (-3)) brCreateContext C9_state_invariants.1

set_option maxRecDepth 40000 in
set_option maxHeartbeats 2000000 in
/-- C1: the claim states that after the single-red-triangle draw every
pixel outside the projected triangle still holds (0,0,0,0).  But
`_process_triangle` unconditionally rasters a white radius-2 debug disc
at each projected vertex (br.h:2229-2250) before the fill.  The
projected vertices are (16,48), (48,48), (32,16); the disc at (16,48)
paints pixel (16,50) — index 50·64+16 = 3216 — with
`_BR_R8G8B8A8(255,255,255,255) = 0xFFFFFFFF`.  That pixel lies outside
the projected triangle, and neither the other two discs (which touch
only columns 46-50 of row 50, and rows 14-18) nor the fill (whose
scanlines run over rows 17-48 only, br.h:1103) ever write it again, so
it stays white, not (0,0,0,0). -/
theorem C1_debug_discs_paint_outside_pixel :
    c1_bufs.1 (50 * 64 + 16) = 0xFFFFFFFF ∧
    _BR_R8G8B8A8 0 0 0 0 = 0 ∧
    (0xFFFFFFFF : Nat) ≠ 0 ∧
    ¬ inside_tri (16, 48) (48, 48) (32, 16) (16, 50) := by
  refine ⟨?_, by decide, by decide, by decide⟩
  have hw : c1_ctx.rb_width = 64 := rfl
  have hh : c1_ctx.rb_height = 64 := rfl
  have hx0 : c1_x0 = ((16 : Int) : ℚ) := by
    simp only [c1_x0, c1_half_width, c1_v0, hw]
    norm_num
  have hy0 : c1_y0 = ((48 : Int) : ℚ) := by
    simp only [c1_y0, c1_half_height, c1_v0, hh]
    norm_num
  have hx1 : c1_x1 = ((48 : Int) : ℚ) := by
    simp only [c1_x1, c1_half_width, c1_v1, hw]
    norm_num
  have hy1 : c1_y1 = ((48 : Int) : ℚ) := by
    simp only [c1_y1, c1_half_height, c1_v1, hh]
    norm_num
  have hx2 : c1_x2 = ((32 : Int) : ℚ) := by
    simp only [c1_x2, c1_half_width, c1_v2, hw]
    norm_num
  have hy2 : c1_y2 = ((16 : Int) : ℚ) := by
    simp only [c1_y2, c1_half_height, c1_v2, hh]
    norm_num
  have hb : c1_bufs =
      _process_triangle_debug_points c1_ctx ((16 : Int) : ℚ) ((48 : Int) : ℚ)
        ((48 : Int) : ℚ) ((48 : Int) : ℚ) ((32 : Int) : ℚ) ((16 : Int) : ℚ)
        (fun _ => 0, fun _ => 0) := by
    unfold c1_bufs
    rw [hx0, hy0, hx1, hy1, hx2, hy2]
  rw [hb]
  decide

end Br
